import Mathlib

/-!
A shallow embedding, in Lean 4, of the import-reconciliation engine of the
OpsPilot repository, together with theorems checking the natural-language
specification against it.

The repository sources at hand are the Next.js frontend.  The pure helpers
(normalizeErrorDetail in lib/utils.ts, the response handling of apiRequest in
lib/api/client.ts, getTotalPages and paginateItems in
components/table-pagination.tsx) and the import flow of app/app/page.tsx
(parseImport row initialisation, commitImport payload construction, the
review gate, and the post-commit state reset) are translated directly from
that source.  The backend endpoints they call (suggest-duplicates and the
Commit Reconciler behind /inventory/import/commit) are not in the sources;
definitions for them are modelled from the specification and say so in their
doc comments.

JavaScript numbers are modelled as rationals; JSON values as the inductive
JSValue below (floating-point NaN is not modelled; no claim depends on it).
-/

/-- A JavaScript/JSON value as handled by the frontend error plumbing:
undefined, null, booleans, numbers (modelled as integers, the only numeric
facts used being truthiness), strings, arrays and plain objects. -/
inductive JSValue where
  | undefined : JSValue
  | null : JSValue
  | bool (b : Bool) : JSValue
  | num (n : Int) : JSValue
  | str (s : String) : JSValue
  | arr (elems : List JSValue) : JSValue
  | obj (fields : List (String × JSValue)) : JSValue
deriving Repr

/-- Truthiness of a JavaScript value: undefined, null, false, 0 and the empty
string are falsy, everything else (including empty arrays and objects) is
truthy. -/
def isFalsy : JSValue → Bool
  | .undefined => true
  | .null => true
  | .bool b => !b
  | .num n => n == 0
  | .str s => s == ""
  | .arr _ => false
  | .obj _ => false

/-- Property access on a JavaScript value: a field of a plain object, and
undefined on everything else (arrays and primitives have no such own
properties in the uses embedded here). -/
def getField : JSValue → String → JSValue
  | .obj fields, key =>
      match fields.find? (fun f => f.1 = key) with
      | some f => f.2
      | none => .undefined
  | _, _ => .undefined

/-- Nullish coalescing a ?? b of JavaScript: b exactly when a is null or
undefined. -/
def nullishCoalesce (a b : JSValue) : JSValue :=
  match a with
  | .undefined => b
  | .null => b
  | v => v

mutual

/-- Simplified model of the JSON.stringify builtin as used by
normalizeErrorDetail: string escaping and the skipping of undefined object
fields are not modelled; no claim depends on the exact rendered text. -/
def jsonStringify : JSValue → String
  | .undefined => "null"
  | .null => "null"
  | .bool b => if b then "true" else "false"
  | .num n => toString n
  | .str s => "\"" ++ s ++ "\""
  | .arr elems => "[" ++ String.intercalate "," (jsonStringifyElems elems) ++ "]"
  | .obj fields => "\x7b" ++ String.intercalate "," (jsonStringifyFields fields) ++ "\x7d"

/-- Elementwise serialisation of an array body for jsonStringify. -/
def jsonStringifyElems : List JSValue → List String
  | [] => []
  | v :: rest => jsonStringify v :: jsonStringifyElems rest

/-- Fieldwise serialisation of an object body for jsonStringify. -/
def jsonStringifyFields : List (String × JSValue) → List String
  | [] => []
  | (k, v) :: rest => ("\"" ++ k ++ "\":" ++ jsonStringify v) :: jsonStringifyFields rest

end

mutual

/-- Model of the String(x) conversion of JavaScript: undefined and null print
their names, arrays join their elements with commas (null and undefined
elements printing as empty), objects print as [object Object]. -/
def jsString : JSValue → String
  | .undefined => "undefined"
  | .null => "null"
  | .bool b => if b then "true" else "false"
  | .num n => toString n
  | .str s => s
  | .arr elems => String.intercalate "," (jsStringElems elems)
  | .obj _ => "[object Object]"

/-- Elementwise conversion of an array body for jsString. -/
def jsStringElems : List JSValue → List String
  | [] => []
  | .undefined :: rest => "" :: jsStringElems rest
  | .null :: rest => "" :: jsStringElems rest
  | v :: rest => jsString v :: jsStringElems rest

end

/-- Translation of the object branch inside the array case of
normalizeErrorDetail (lib/utils.ts): msg is the msg field when it is a
string, otherwise the JSON rendering of the part; loc joins the stringified
loc segments other than "body" with dots; a nonempty loc prefixes msg. -/
def recordPartToString (part : JSValue) : String :=
  let msg :=
    match getField part "msg" with
    | .str m => m
    | _ => jsonStringify part
  let loc :=
    match getField part "loc" with
    | .arr segments =>
        String.intercalate "." ((segments.map jsString).filter (fun s => s ≠ "body"))
    | _ => ""
  if loc ≠ "" then loc ++ ": " ++ msg else msg

/-- Translation of the per-element mapping inside the array branch of
normalizeErrorDetail: strings pass through, truthy objects (arrays included)
take the record path, and everything else is String-converted. -/
def detailPartToString : JSValue → String
  | .str s => s
  | .arr elems => recordPartToString (.arr elems)
  | .obj fields => recordPartToString (.obj fields)
  | v => jsString v

/-- Translation of normalizeErrorDetail from lib/utils.ts: falsy input yields
the fixed fallback, arrays map their parts and join with semicolons, other
objects are JSON-rendered, and remaining primitives are String-converted. -/
def normalizeErrorDetail (detail : JSValue) : String :=
  if isFalsy detail then "Request failed"
  else
    match detail with
    | .arr parts => String.intercalate "; " (parts.map detailPartToString)
    | .obj fields => jsonStringify (.obj fields)
    | v => jsString v

/-- Translation of the ApiError class of lib/api/client.ts: an HTTP status
and a message. -/
structure ApiError where
  status : Nat
  message : String
deriving Repr, DecidableEq

/-- Abstraction of a completed fetch response as consumed by apiRequest:
the ok flag, the HTTP status, the JSON parse of the body when the body
parses (none when response.json() would throw), and the raw body text. -/
structure HttpResponse where
  ok : Bool
  status : Nat
  jsonBody : Option JSValue
  textBody : String
deriving Repr

/-- Outcome of the response handling of apiRequest as the caller observes
it: a successful value, a thrown ApiError, or an uncaught TypeError escaping
from the fetch body machinery. -/
inductive ApiOutcome where
  | success (v : JSValue) : ApiOutcome
  | apiError (e : ApiError) : ApiOutcome
  | bodyReadTypeError : ApiOutcome
deriving Repr

/-- Translation of the error-message computation of apiRequest
(lib/api/client.ts lines 67 to 69) on the one error path that can complete:
the body parsed as JSON, and the message is normalizeErrorDetail of its
detail field, falling back to the whole payload. -/
def errorMessageOf (payload : JSValue) : String :=
  normalizeErrorDetail (nullishCoalesce (getField payload "detail") payload)

/-- Translation of the response handling of apiRequest (lib/api/client.ts
lines 63 to 88).  On a non-ok response the code first awaits
response.json(); when the body is valid JSON this produces ApiError with the
status and the derived message.  When it is not, response.json() rejects
only after consuming the body stream, so the catch block's await
response.text() rejects in turn with a TypeError (body already read) that
nothing catches — no ApiError carrying the status is ever constructed on
that path, and the caller sees the bare TypeError.  On an ok response a 204
or empty body yields an empty object, otherwise the parsed JSON body, or the
raw text when parsing fails (there response.text() is the first read of the
body, so it succeeds). -/
def apiHandleResponse (r : HttpResponse) : ApiOutcome :=
  if r.ok = false then
    match r.jsonBody with
    | some payload => .apiError ⟨r.status, errorMessageOf payload⟩
    | none => .bodyReadTypeError
  else if r.status = 204 then .success (.obj [])
  else if r.textBody = "" then .success (.obj [])
  else
    match r.jsonBody with
    | some v => .success v
    | none => .success (.str r.textBody)

/-- Translation of getTotalPages from components/table-pagination.tsx:
the ceiling of totalItems over the page size clamped to at least 1, the
result itself clamped to at least 1.  The JavaScript float division plus
Math.ceil is modelled as natural ceiling division. -/
def getTotalPages (totalItems : Nat) (pageSize : Int) : Nat :=
  let s := (max 1 pageSize).toNat
  max 1 ((totalItems + s - 1) / s)

/-- Translation of paginateItems from components/table-pagination.tsx:
page and size clamp to at least 1, and the slice from (page-1)*size of
length size is taken (Array.prototype.slice and drop/take clamp alike). -/
def paginateItems {α : Type} (items : List α) (page : Int) (pageSize : Int) : List α :=
  let safePage := (max 1 page).toNat
  let safeSize := (max 1 pageSize).toNat
  (items.drop ((safePage - 1) * safeSize)).take safeSize

/-- Translation of the DuplicateAction union of app/app/page.tsx (and the
ImportDuplicateAction union of the API types). -/
inductive DuplicateAction where
  | auto : DuplicateAction
  | merge : DuplicateAction
  | create_new : DuplicateAction
  | review : DuplicateAction
deriving Repr, DecidableEq

/-- Translation of the InventoryStatus union of the API types. -/
inductive InventoryStatus where
  | in_stock : InventoryStatus
  | low_stock : InventoryStatus
  | ordered : InventoryStatus
  | discontinued : InventoryStatus
deriving Repr, DecidableEq

/-- Translation of InventoryItemOut from the API types: one inventory record.
The workspace_id field is omitted: every store below is the snapshot of a
single workspace, matching the workspace scoping header of apiRequest. -/
structure InventoryRecord where
  id : Int
  name : String
  normalized_name : String
  category : String
  quantity : ℚ
  unit : String
  low_stock_threshold : ℚ
  status : InventoryStatus
deriving Repr, DecidableEq

/-- Translation of ReceiptItem from the API types, with the fields optional
exactly as the defensive access in page.tsx treats them (item.quantity,
item.unit, item.category, item.price and item.vendor are all read through
nullish fallbacks). -/
structure ReceiptItem where
  name : String
  quantity : Option ℚ
  unit : Option String
  category : Option String
  price : Option ℚ
  vendor : Option String
deriving Repr, DecidableEq

/-- Translation of ReceiptExtraction from the API types. -/
structure ReceiptExtraction where
  vendor : Option String
  date : Option String
  items : List ReceiptItem
deriving Repr, DecidableEq

/-- Translation of DuplicateSuggestionCandidate from the API types. -/
structure DuplicateSuggestionCandidate where
  item_id : Int
  name : String
  unit : String
  category : String
  quantity : ℚ
  similarity_score : ℚ
  reason : String
deriving Repr, DecidableEq

/-- Translation of DuplicateSuggestionForImportItem from the API types. -/
structure DuplicateSuggestionForImportItem where
  import_index : Nat
  import_name : String
  import_unit : String
  candidates : List DuplicateSuggestionCandidate
  recommended_action : DuplicateAction
  recommended_merge_item_id : Option Int
deriving Repr, DecidableEq

/-- Translation of the EditableImportRow type of app/app/page.tsx. -/
structure EditableImportRow where
  name : String
  quantity : ℚ
  unit : String
  vendor : String
  category : String
  price : Option ℚ
  duplicate_action : DuplicateAction
  duplicate_candidates : String
  merge_item_id : Option Int
deriving Repr, DecidableEq

/-- Translation of one item of the commit request body built by commitImport
in app/app/page.tsx (lines 449 to 458). -/
structure CommitPayloadItem where
  name : String
  quantity : ℚ
  unit : String
  vendor : Option String
  category : Option String
  price : Option ℚ
  duplicate_action : DuplicateAction
  merge_item_id : Option Int
deriving Repr, DecidableEq

/-- Translation of the idiom value-or-null of page.tsx (row.vendor or null):
a string is falsy exactly when empty. -/
def stringOrNull (s : String) : Option String :=
  if s = "" then none else some s

/-- Truthiness test the commitImport fallback applies to a merge id: the
JavaScript negation there treats both null and 0 as missing. -/
def mergeIdFalsy : Option Int → Bool
  | none => true
  | some n => n == 0

/-- Translation of the merge-target fallback of commitImport
(app/app/page.tsx lines 444 to 448): only for rows whose action is merge and
whose own merge id is falsy does the payload fall back to the recommended
merge id of the suggestion at the same array position. -/
def resolveMergeItemId (suggestions : List DuplicateSuggestionForImportItem)
    (index : Nat) (row : EditableImportRow) : Option Int :=
  if row.duplicate_action = .merge ∧ mergeIdFalsy row.merge_item_id then
    (suggestions.get? index).bind (fun s => s.recommended_merge_item_id)
  else row.merge_item_id

/-- Translation of the payload row built by commitImport (app/app/page.tsx
lines 449 to 458) for the row at the given array position. -/
def payloadOfRow (suggestions : List DuplicateSuggestionForImportItem)
    (index : Nat) (row : EditableImportRow) : CommitPayloadItem :=
  { name := row.name
    quantity := row.quantity
    unit := row.unit
    vendor := stringOrNull row.vendor
    category := stringOrNull row.category
    price := row.price
    duplicate_action := row.duplicate_action
    merge_item_id := resolveMergeItemId suggestions index row }

/-- Worker for buildCommitPayload: the map with index of commitImport. -/
def payloadsFrom (suggestions : List DuplicateSuggestionForImportItem) :
    Nat → List EditableImportRow → List CommitPayloadItem
  | _, [] => []
  | index, row :: rest =>
      payloadOfRow suggestions index row :: payloadsFrom suggestions (index + 1) rest

/-- Translation of the body of the commitImport mutation (app/app/page.tsx
lines 437 to 459): if any editable row still has the review action the
mutation throws before building the request body; otherwise it produces the
commit request items. -/
def buildCommitPayload (rows : List EditableImportRow)
    (suggestions : List DuplicateSuggestionForImportItem) :
    Except String (List CommitPayloadItem) :=
  if rows.any (fun row => row.duplicate_action = .review) then
    Except.error "Resolve duplicate decisions before commit."
  else
    Except.ok (payloadsFrom suggestions 0 rows)

/-- Modelled from the spec: the error taxonomy of the Commit Reconciler
(sections 4.4 and 7) — the backend behind /inventory/import/commit is not in
the frontend sources.  Each error carries the import index of the offending
row, as section 7 requires. -/
inductive CommitError where
  | unresolvedDuplicate (index : Nat) : CommitError
  | invalidMergeTarget (index : Nat) : CommitError
  | invalidQuantity (index : Nat) : CommitError
deriving Repr, DecidableEq

/-- Actions that resolve to a merge in the Commit Reconciler (section 4.4
step 2 treats merge and auto alike). -/
def isMergeAction : DuplicateAction → Bool
  | .merge => true
  | .auto => true
  | .create_new => false
  | .review => false

/-- Lookup of a record by id in the workspace store snapshot. -/
def lookupRecord (store : List InventoryRecord) (id : Int) : Option InventoryRecord :=
  store.find? (fun r => r.id = id)

/-- Modelled from the spec: the per-decision validation of section 4.4
step 1 plus the negative-quantity ValidationError of section 7.  Returns the
error constructor still waiting for the row index (which only the batch
walk knows), so that validity of a decision does not depend on its
position. -/
def decisionProblem (store : List InventoryRecord) (d : CommitPayloadItem) :
    Option (Nat → CommitError) :=
  if d.duplicate_action = .review then some .unresolvedDuplicate
  else if d.quantity < 0 then some .invalidQuantity
  else if isMergeAction d.duplicate_action then
    match d.merge_item_id with
    | none => some .invalidMergeTarget
    | some t => if (lookupRecord store t).isSome then none else some .invalidMergeTarget
  else none

/-- Modelled from the spec: whole-batch validation before touching the store
(section 4.4 step 1), reporting the first offending row. -/
def validateBatchFrom (store : List InventoryRecord) :
    Nat → List CommitPayloadItem → Option CommitError
  | _, [] => none
  | index, d :: rest =>
      match decisionProblem store d with
      | some mk => some (mk index)
      | none => validateBatchFrom store (index + 1) rest

/-- Modelled from the spec: the status a quantity derives against a
threshold — quantity at or below the threshold is low_stock, above it is
in_stock (section 4.4 step 2, with the inclusive boundary of the section 8
example). -/
def statusForQuantity (threshold quantity : ℚ) : InventoryStatus :=
  if quantity ≤ threshold then .low_stock else .in_stock

/-- Modelled from the spec: status recomputation after a quantity change —
records previously discontinued or ordered keep their status, others move
between in_stock and low_stock (section 4.4 step 2). -/
def recomputeStatus (previous : InventoryStatus) (threshold quantity : ℚ) :
    InventoryStatus :=
  match previous with
  | .discontinued => .discontinued
  | .ordered => .ordered
  | .in_stock => statusForQuantity threshold quantity
  | .low_stock => statusForQuantity threshold quantity

/-- Modelled from the spec: merging a commit decision into its target record
adds the decision quantity onto the record quantity and recomputes the
status from the new quantity (section 4.4 step 2). -/
def mergeInto (d : CommitPayloadItem) (r : InventoryRecord) : InventoryRecord :=
  { r with
      quantity := r.quantity + d.quantity
      status := recomputeStatus r.status r.low_stock_threshold (r.quantity + d.quantity) }

/-- Modelled from the spec: a fresh workspace-scoped id for a created record
(one more than the largest id in the snapshot; ids are opaque, only
freshness matters). -/
def freshId (store : List InventoryRecord) : Int :=
  (store.foldl (fun m r => max m r.id) 0) + 1

/-- Modelled from the spec: the Normalizer of section 4.1 — lower-case,
collapse internal whitespace, strip punctuation (non-alphanumeric characters
become spaces before collapsing). -/
def normalizeName (s : String) : String :=
  String.intercalate " "
    (((s.map (fun c => if c.isAlphanum then c.toLower else ' ')).splitOn " ").filter
      (fun w => w ≠ ""))

/-- Modelled from the spec: the record inserted by a create_new decision —
quantity from the candidate, status derived from quantity against the
caller-supplied default threshold (section 4.4 step 2). -/
def newRecordOf (defaultThreshold : ℚ) (store : List InventoryRecord)
    (d : CommitPayloadItem) : InventoryRecord :=
  { id := freshId store
    name := d.name
    normalized_name := normalizeName d.name
    category := d.category.getD ""
    quantity := d.quantity
    unit := d.unit
    low_stock_threshold := defaultThreshold
    status := statusForQuantity defaultThreshold d.quantity }

/-- Modelled from the spec: applying one validated decision to the store
(section 4.4 step 2): create_new appends a fresh record; merge and auto add
the quantity onto the target and recompute its status; a dangling or missing
target fails.  Returns the new store and the affected record. -/
def applyDecision (defaultThreshold : ℚ) (store : List InventoryRecord)
    (index : Nat) (d : CommitPayloadItem) :
    Except CommitError (List InventoryRecord × InventoryRecord) :=
  match d.duplicate_action with
  | .review => Except.error (.unresolvedDuplicate index)
  | .create_new =>
      Except.ok (store ++ [newRecordOf defaultThreshold store d],
        newRecordOf defaultThreshold store d)
  | _ =>
      match d.merge_item_id with
      | none => Except.error (.invalidMergeTarget index)
      | some t =>
          match lookupRecord store t with
          | none => Except.error (.invalidMergeTarget index)
          | some r =>
              Except.ok (store.map (fun x => if x.id = t then mergeInto d x else x),
                mergeInto d r)

/-- Modelled from the spec: the batch application loop of section 4.4
step 2, threading the store through the decisions and collecting the
affected records; any failure aborts with no store to return, which is the
all-or-nothing contract. -/
def applyBatchFrom (defaultThreshold : ℚ) :
    List InventoryRecord → Nat → List CommitPayloadItem →
    Except CommitError (List InventoryRecord × List InventoryRecord)
  | store, _, [] => Except.ok (store, [])
  | store, index, d :: rest =>
      match applyDecision defaultThreshold store index d with
      | .error e => Except.error e
      | .ok (store2, affected) =>
          match applyBatchFrom defaultThreshold store2 (index + 1) rest with
          | .error e => Except.error e
          | .ok (storeF, affectedRest) => Except.ok (storeF, affected :: affectedRest)

/-- Modelled from the spec: the Commit Reconciler behind
/inventory/import/commit (section 4.4) — validate the whole batch before
touching the store, then apply every decision as one atomic unit, returning
the new store and the created or updated records. -/
def commitImportServer (defaultThreshold : ℚ) (store : List InventoryRecord)
    (items : List CommitPayloadItem) :
    Except CommitError (List InventoryRecord × List InventoryRecord) :=
  match validateBatchFrom store 0 items with
  | some e => Except.error e
  | none => applyBatchFrom defaultThreshold store 0 items

/-- Observable store after a commit call: the new store on success and the
unchanged snapshot on failure (a failed call applies no partial effect). -/
def commitStateAfter (defaultThreshold : ℚ) (store : List InventoryRecord)
    (items : List CommitPayloadItem) : List InventoryRecord :=
  match commitImportServer defaultThreshold store items with
  | .ok (store2, _) => store2
  | .error _ => store

/-- Outcome of one run of the commitImport mutation, client gate included:
either the client threw before issuing the request, or the server rejected
the batch, or the batch committed. -/
inductive CommitOutcome where
  | clientError (message : String) : CommitOutcome
  | serverError (e : CommitError) : CommitOutcome
  | committed (store2 : List InventoryRecord) (affected : List InventoryRecord) : CommitOutcome
deriving Repr, DecidableEq

/-- The commitImport mutation end to end: the client-side payload
construction of app/app/page.tsx feeding the modelled Commit Reconciler.  A
clientError outcome is thrown before any request reaches the store. -/
def commitImportFlow (defaultThreshold : ℚ) (store : List InventoryRecord)
    (rows : List EditableImportRow)
    (suggestions : List DuplicateSuggestionForImportItem) : CommitOutcome :=
  match buildCommitPayload rows suggestions with
  | .error msg => .clientError msg
  | .ok items =>
      match commitImportServer defaultThreshold store items with
      | .error e => .serverError e
      | .ok (store2, affected) => .committed store2 affected

/-- Observable store after one run of the commitImport mutation. -/
def storeAfterFlow (defaultThreshold : ℚ) (store : List InventoryRecord)
    (rows : List EditableImportRow)
    (suggestions : List DuplicateSuggestionForImportItem) : List InventoryRecord :=
  match commitImportFlow defaultThreshold store rows suggestions with
  | .committed store2 _ => store2
  | _ => store

/-- Modelled from the spec: the threshold configuration of the Similarity
Scorer and Recommendation Engine (sections 4.2 and 4.3) — the concrete
numbers are implementation choices, so they are parameters here. -/
structure ScoringConfig where
  highThreshold : ℚ
  lowThreshold : ℚ
  floorScore : ℚ
  topN : Nat
deriving Repr, DecidableEq

/-- Candidate built from one store record and its score and reason. -/
def candidateOf (r : InventoryRecord) (score : ℚ) (why : String) :
    DuplicateSuggestionCandidate :=
  { item_id := r.id
    name := r.name
    unit := r.unit
    category := r.category
    quantity := r.quantity
    similarity_score := score
    reason := why }

/-- Ranking order of candidates for one import row: higher score first, ties
broken by lower record id (the determinism invariant of section 3). -/
def candidateLE (a b : DuplicateSuggestionCandidate) : Bool :=
  b.similarity_score < a.similarity_score ∨
    (a.similarity_score = b.similarity_score ∧ a.item_id ≤ b.item_id)

/-- Modelled from the spec: the Similarity Scorer of section 4.2 — score
every record of the workspace snapshot with the supplied scoring function,
drop those below the floor, sort best first with the deterministic tie
break, and truncate to the fixed top N. -/
def rankCandidates (score : ReceiptItem → InventoryRecord → ℚ × String)
    (cfg : ScoringConfig) (store : List InventoryRecord) (item : ReceiptItem) :
    List DuplicateSuggestionCandidate :=
  (((store.map (fun r => candidateOf r (score item r).1 (score item r).2)).filter
      (fun c => cfg.floorScore ≤ c.similarity_score)).mergeSort candidateLE).take cfg.topN

/-- Modelled from the spec: the decision table of the Recommendation Engine
(section 4.3), read in the order its cases are listed: no candidate at or
above the low threshold gives create_new with no target; a best candidate at
or above the high threshold with compatible units gives auto targeting that
record; everything else (the ambiguous band, and a high-scoring candidate
with incompatible units) gives review with no target. -/
def decisionTable (cfg : ScoringConfig)
    (unitCompatible : ReceiptItem → DuplicateSuggestionCandidate → Bool)
    (item : ReceiptItem) (ranked : List DuplicateSuggestionCandidate) :
    DuplicateAction × Option Int :=
  match ranked.filter (fun c => cfg.lowThreshold ≤ c.similarity_score) with
  | [] => (.create_new, none)
  | best :: _ =>
      if cfg.highThreshold ≤ best.similarity_score then
        if unitCompatible item best then (.auto, some best.item_id)
        else (.review, none)
      else (.review, none)

/-- Modelled from the spec: the suggestion for the import row at the given
index (sections 4.2, 4.3 and the DuplicateSuggestion shape of section 3). -/
def mkSuggestionFor (score : ReceiptItem → InventoryRecord → ℚ × String)
    (cfg : ScoringConfig)
    (unitCompatible : ReceiptItem → DuplicateSuggestionCandidate → Bool)
    (store : List InventoryRecord) (index : Nat) (item : ReceiptItem) :
    DuplicateSuggestionForImportItem :=
  let ranked := rankCandidates score cfg store item
  let decision := decisionTable cfg unitCompatible item ranked
  { import_index := index
    import_name := item.name
    import_unit := item.unit.getD ""
    candidates := ranked
    recommended_action := decision.1
    recommended_merge_item_id := decision.2 }

/-- Worker for suggestDuplicates, carrying the running import index. -/
def suggestDuplicatesFrom (score : ReceiptItem → InventoryRecord → ℚ × String)
    (cfg : ScoringConfig)
    (unitCompatible : ReceiptItem → DuplicateSuggestionCandidate → Bool)
    (store : List InventoryRecord) :
    Nat → List ReceiptItem → List DuplicateSuggestionForImportItem
  | _, [] => []
  | index, item :: rest =>
      mkSuggestionFor score cfg unitCompatible store index item ::
        suggestDuplicatesFrom score cfg unitCompatible store (index + 1) rest

/-- Modelled from the spec: the suggest-duplicates endpoint (section 6) —
one suggestion per input item, indexed by import_index, scored against the
workspace snapshot.  The scoring function and unit-compatibility predicate
are the implementation choices section 9 leaves open. -/
def suggestDuplicates (score : ReceiptItem → InventoryRecord → ℚ × String)
    (cfg : ScoringConfig)
    (unitCompatible : ReceiptItem → DuplicateSuggestionCandidate → Bool)
    (store : List InventoryRecord) (items : List ReceiptItem) :
    List DuplicateSuggestionForImportItem :=
  suggestDuplicatesFrom score cfg unitCompatible store 0 items

/-- Translation of the suggestion lookup of parseImport (app/app/page.tsx
lines 407 to 410): the Map built there by repeated set keeps, for
each import index, the last suggestion carrying it. -/
def lookupSuggestionByIndex (suggestions : List DuplicateSuggestionForImportItem)
    (index : Nat) : Option DuplicateSuggestionForImportItem :=
  suggestions.reverse.find? (fun s => s.import_index = index)

/-- Translation of the candidate display string of parseImport
(app/app/page.tsx line 423). -/
def candidateLabel (c : DuplicateSuggestionCandidate) : String :=
  c.name ++ " (" ++ c.unit ++ ") score " ++ toString c.similarity_score

/-- Translation of the editable row built by parseImport (app/app/page.tsx
lines 409 to 428) from one parsed item and the suggestion found for its
index. -/
def rowOfItem (parsedVendor : Option String)
    (suggestion : Option DuplicateSuggestionForImportItem) (item : ReceiptItem) :
    EditableImportRow :=
  let candidates := (suggestion.map (fun s => s.candidates)).getD []
  { name := item.name
    quantity := item.quantity.getD 1
    unit := item.unit.getD "units"
    vendor := ((item.vendor).orElse (fun _ => parsedVendor)).getD ""
    category := item.category.getD ""
    price := item.price
    duplicate_action := (suggestion.map (fun s => s.recommended_action)).getD .auto
    duplicate_candidates :=
      if candidates.length > 0 then String.intercalate "; " (candidates.map candidateLabel)
      else "No close matches"
    merge_item_id := suggestion.bind (fun s => s.recommended_merge_item_id) }

/-- Worker for buildImportRows: the map with index of parseImport. -/
def buildImportRowsFrom (parsedVendor : Option String)
    (suggestions : List DuplicateSuggestionForImportItem) :
    Nat → List ReceiptItem → List EditableImportRow
  | _, [] => []
  | index, item :: rest =>
      rowOfItem parsedVendor (lookupSuggestionByIndex suggestions index) item ::
        buildImportRowsFrom parsedVendor suggestions (index + 1) rest

/-- Translation of the editable-rows initialisation of parseImport
(app/app/page.tsx lines 407 to 429). -/
def buildImportRows (parsed : ReceiptExtraction)
    (suggestions : List DuplicateSuggestionForImportItem) : List EditableImportRow :=
  buildImportRowsFrom parsed.vendor suggestions 0 parsed.items

/-- The ephemeral import state of the dashboard page (app/app/page.tsx
lines 295 to 305): the raw text, the selected file (its name), the parsed
extraction, the duplicate suggestions, the editable rows and the review
page. -/
structure ImportUiState where
  importText : String
  importFile : Option String
  parsedImport : Option ReceiptExtraction
  duplicateSuggestions : List DuplicateSuggestionForImportItem
  editableRows : List EditableImportRow
  importPage : Nat
deriving Repr, DecidableEq

/-- Translation of the onSuccess handler of the commitImport mutation
(app/app/page.tsx lines 470 to 481): every piece of ephemeral import state
is reset. -/
def commitImportOnSuccess (s : ImportUiState) : ImportUiState :=
  { s with
      parsedImport := none
      duplicateSuggestions := []
      editableRows := []
      importText := ""
      importFile := none
      importPage := 1 }

/-- Helper: each page is a take of length at most the clamped size. -/
theorem paginateItems_length_le {α : Type} (items : List α) (page size : Int) :
    (paginateItems items page size).length ≤ (max 1 size).toNat := by
  simp only [paginateItems, List.length_take, List.length_drop]
  omega

/-- Helper: joining the successive drop-take chunks of width s recovers the
list as soon as the chunk count covers its length. -/
theorem join_chunks {α : Type} (s : Nat) :
    ∀ (n : Nat) (l : List α), l.length ≤ n * s →
      ((List.range n).map (fun p => (l.drop (p * s)).take s)).flatten = l := by
  intro n
  induction n with
  | zero =>
      intro l hl
      simp only [Nat.zero_mul, Nat.le_zero, List.length_eq_zero] at hl
      simp [hl]
  | succ n ih =>
      intro l hl
      rw [List.range_succ_eq_map]
      simp only [List.map_cons, List.map_map, List.flatten_cons, Nat.zero_mul, List.drop_zero]
      have hfun : ((fun p => (l.drop (p * s)).take s) ∘ Nat.succ) =
          fun p => ((l.drop s).drop (p * s)).take s := by
        funext p
        simp only [Function.comp_apply]
        rw [List.drop_drop]
        congr 2
        simp only [Nat.succ_eq_add_one]
        ring
      rw [hfun, ih (l.drop s)]
      · exact List.take_append_drop s l
      · have hlen : (l.drop s).length = l.length - s := List.length_drop s l
        have hmul : (n + 1) * s = n * s + s := by ring
        rw [hmul] at hl
        obtain ⟨m, hm⟩ : ∃ m, n * s = m := ⟨_, rfl⟩
        rw [hm] at hl ⊢
        omega

/-- Helper: the clamped page size is at least one. -/
theorem one_le_safeSize (size : Int) : 1 ≤ (max 1 size).toNat := by
  have h := le_max_left 1 size
  omega

/-- Helper: a page indexed from one by a natural number slices at the
expected offset. -/
theorem paginateItems_nat_page {α : Type} (items : List α) (p : Nat) (size : Int) :
    paginateItems items ((p : Int) + 1) size =
      (items.drop (p * (max 1 size).toNat)).take (max 1 size).toNat := by
  unfold paginateItems
  have h1 : (1 : Int) ≤ (p : Int) + 1 := by omega
  rw [max_eq_right h1]
  have h2 : ((p : Int) + 1).toNat = p + 1 := by omega
  rw [h2]
  simp

/-- Helper: the page count of getTotalPages covers the whole list. -/
theorem length_le_pages_mul (len : Nat) (size : Int) :
    len ≤ getTotalPages len size * (max 1 size).toNat := by
  unfold getTotalPages
  have hs1 : 1 ≤ (max 1 size).toNat := one_le_safeSize size
  set s := (max 1 size).toNat with hs
  have hdiv := Nat.div_add_mod (len + s - 1) s
  have hmod : (len + s - 1) % s < s := Nat.mod_lt _ (by omega)
  have hq : len ≤ s * ((len + s - 1) / s) := by
    obtain ⟨m, hm⟩ : ∃ m, s * ((len + s - 1) / s) = m := ⟨_, rfl⟩
    rw [hm] at hdiv ⊢
    omega
  calc len ≤ s * ((len + s - 1) / s) := hq
    _ = ((len + s - 1) / s) * s := by ring
    _ ≤ max 1 ((len + s - 1) / s) * s := Nat.mul_le_mul_right s (le_max_right 1 _)

/-- C9 counterexample: the claim bounds every page by the raw page size, but
with page size 0 (a non-positive size, which the claim's own parenthetical
places in scope) the single page of a one-element list holds one item. -/
theorem paginateItems_size_counterexample :
    (paginateItems [(0 : Nat)] 1 0).length = 1 ∧
      ¬ (paginateItems [(0 : Nat)] 1 0).length ≤ 0 := by
  constructor
  · rfl
  · decide

/-- C9 (amended): concatenating the pages for p = 1 .. getTotalPages yields
exactly the original list in order, each page contains at most max 1 size
items (so at most size items whenever the size is positive), and
getTotalPages returns at least 1 even for an empty list or a non-positive
page size. -/
theorem paginateItems_partition {α : Type} (items : List α) (size : Int) :
    ((List.range (getTotalPages items.length size)).map
        (fun p : Nat => paginateItems items ((p : Int) + 1) size)).flatten = items ∧
    (∀ page : Int, (paginateItems items page size).length ≤ (max 1 size).toNat) ∧
    1 ≤ getTotalPages items.length size := by
  refine ⟨?_, fun page => paginateItems_length_le items page size, le_max_left 1 _⟩
  have hmap : (List.range (getTotalPages items.length size)).map
      (fun p : Nat => paginateItems items ((p : Int) + 1) size) =
      (List.range (getTotalPages items.length size)).map
        (fun p => (items.drop (p * (max 1 size).toNat)).take (max 1 size).toNat) := by
    apply List.map_congr_left
    intro p _
    exact paginateItems_nat_page items p size
  rw [hmap]
  exact join_chunks (max 1 size).toNat (getTotalPages items.length size) items
    (length_le_pages_mul items.length size)

/-- C10: normalizeErrorDetail is total by construction (it is a plain Lean
function on every JSValue, so it never throws), and every falsy input —
null, undefined, false, zero or the empty string — yields the fixed
fallback string. -/
theorem normalizeErrorDetail_falsy (d : JSValue) (h : isFalsy d = true) :
    normalizeErrorDetail d = "Request failed" := by
  simp [normalizeErrorDetail, h]

/-- Witness for C10 at the concrete falsy input null. -/
theorem normalizeErrorDetail_falsy_witness :
    isFalsy JSValue.null = true ∧ normalizeErrorDetail JSValue.null = "Request failed" :=
  ⟨rfl, normalizeErrorDetail_falsy JSValue.null rfl⟩

/-- C7 divergence at the failing input: a non-ok response whose body is not
valid JSON (here a 502 with a plain-text body) ends in the uncaught
TypeError of the already-consumed body stream, not in any ApiError — so no
HTTP status reaches the caller — while a non-ok response whose body is valid
JSON does produce the ApiError the claim describes.  The source's own catch
block exists to build ApiError(status, text) from such bodies, but
response.text() can never complete there, so the claim captures the intent
and the code path is a slip. -/
theorem apiRequest_nonjson_error_divergence :
    apiHandleResponse ⟨false, 502, none, "Bad Gateway"⟩ = ApiOutcome.bodyReadTypeError ∧
    (∀ e : ApiError,
      apiHandleResponse ⟨false, 502, none, "Bad Gateway"⟩ ≠ ApiOutcome.apiError e) ∧
    apiHandleResponse ⟨false, 404, some (.obj [("detail", .str "Item not found")]), ""⟩ =
      ApiOutcome.apiError ⟨404, "Item not found"⟩ := by
  refine ⟨rfl, ?_, rfl⟩
  intro e h
  exact ApiOutcome.noConfusion h

/-- C8: after a successful commit the onSuccess handler discards all
ephemeral import state — the parsed extraction, the duplicate suggestions,
the editable rows, the raw import text and the selected file are all
reset. -/
theorem commitImport_clears_import_state (s : ImportUiState) :
    (commitImportOnSuccess s).parsedImport = none ∧
    (commitImportOnSuccess s).duplicateSuggestions = [] ∧
    (commitImportOnSuccess s).editableRows = [] ∧
    (commitImportOnSuccess s).importText = "" ∧
    (commitImportOnSuccess s).importFile = none :=
  ⟨rfl, rfl, rfl, rfl, rfl⟩

/-- Helper: actions that resolve to a merge are not the review action. -/
theorem isMergeAction_ne_review (a : DuplicateAction) (h : isMergeAction a = true) :
    a ≠ .review := by
  intro hR
  rw [hR] at h
  exact absurd h (by decide)

/-- Helper: a merge-like decision whose target is absent or dangling fails
per-decision validation. -/
theorem decisionProblem_isSome_of_badTarget (store : List InventoryRecord)
    (d : CommitPayloadItem) (ha : isMergeAction d.duplicate_action = true)
    (ht : ∀ t, d.merge_item_id = some t → lookupRecord store t = none) :
    (decisionProblem store d).isSome = true := by
  have hrev : ¬ d.duplicate_action = .review := isMergeAction_ne_review _ ha
  unfold decisionProblem
  rw [if_neg hrev]
  by_cases hq : d.quantity < 0
  · rw [if_pos hq]
    rfl
  · rw [if_neg hq, if_pos ha]
    cases hmi : d.merge_item_id with
    | none => rfl
    | some t =>
        have hlk := ht t hmi
        simp [hlk]

/-- Helper: a batch containing any invalid decision fails whole-batch
validation, whatever the starting index. -/
theorem validateBatchFrom_isSome (store : List InventoryRecord) :
    ∀ (i0 : Nat) (items : List CommitPayloadItem),
      (∃ d ∈ items, (decisionProblem store d).isSome = true) →
      ∃ e, validateBatchFrom store i0 items = some e := by
  intro i0 items
  induction items generalizing i0 with
  | nil =>
      intro h
      obtain ⟨d, hd, _⟩ := h
      simp at hd
  | cons d rest ih =>
      intro h
      cases hp : decisionProblem store d with
      | some mk => exact ⟨mk i0, by simp [validateBatchFrom, hp]⟩
      | none =>
          obtain ⟨d2, hd2, hsome⟩ := h
          rcases List.mem_cons.mp hd2 with h1 | h2
          · subst h1
            rw [hp] at hsome
            simp at hsome
          · obtain ⟨e, he⟩ := ih (i0 + 1) ⟨d2, h2, hsome⟩
            exact ⟨e, by simp [validateBatchFrom, hp, he]⟩

/-- Helper: a batch containing any invalid decision makes the modelled
Commit Reconciler fail, leaving the observable store unchanged. -/
theorem commitServer_error_of_problem (defaultThreshold : ℚ)
    (store : List InventoryRecord) (items : List CommitPayloadItem)
    (h : ∃ d ∈ items, (decisionProblem store d).isSome = true) :
    (∃ e, commitImportServer defaultThreshold store items = Except.error e) ∧
    commitStateAfter defaultThreshold store items = store := by
  obtain ⟨e, he⟩ := validateBatchFrom_isSome store 0 items h
  constructor
  · exact ⟨e, by simp [commitImportServer, he]⟩
  · simp [commitStateAfter, commitImportServer, he]

/-- Helper: merging preserves the record id. -/
theorem mergeInto_id (d : CommitPayloadItem) (r : InventoryRecord) :
    (mergeInto d r).id = r.id := rfl

/-- Helper: the merge update of the store preserves every record id. -/
theorem updateRecord_id (d : CommitPayloadItem) (t : Int) (x : InventoryRecord) :
    (if x.id = t then mergeInto d x else x).id = x.id := by
  by_cases h : x.id = t <;> simp [h, mergeInto_id]

/-- Helper: looking a record up in an id-preserving map of the store is the
map of the lookup. -/
theorem lookupRecord_map_update (store : List InventoryRecord)
    (f : InventoryRecord → InventoryRecord) (hid : ∀ r, (f r).id = r.id) (i : Int) :
    lookupRecord (store.map f) i = (lookupRecord store i).map f := by
  induction store with
  | nil => rfl
  | cons r rest ih =>
      simp only [lookupRecord, List.map_cons, List.find?_cons] at *
      rw [hid r]
      by_cases h : r.id = i
      · simp [h]
      · simp only [h, decide_False]
        exact ih

/-- Helper: the equation applyDecision satisfies on a merge-like decision
with a resolvable target. -/
theorem applyDecision_merge_eq (defaultThreshold : ℚ) (store : List InventoryRecord)
    (index : Nat) (d : CommitPayloadItem) (t : Int) (r : InventoryRecord)
    (ha : isMergeAction d.duplicate_action = true)
    (ht : d.merge_item_id = some t)
    (hr : lookupRecord store t = some r) :
    applyDecision defaultThreshold store index d =
      Except.ok (store.map (fun x => if x.id = t then mergeInto d x else x),
        mergeInto d r) := by
  cases hact : d.duplicate_action with
  | review => rw [hact] at ha; exact absurd ha (by decide)
  | create_new => rw [hact] at ha; exact absurd ha (by decide)
  | merge => simp [applyDecision, hact, ht, hr]
  | auto => simp [applyDecision, hact, ht, hr]

/-- Helper: a found record satisfies the lookup predicate. -/
theorem lookupRecord_some_id (store : List InventoryRecord) (i : Int)
    (r : InventoryRecord) (h : lookupRecord store i = some r) : r.id = i := by
  unfold lookupRecord at h
  have := List.find?_some h
  simpa using this

/-- Fixture: the example record of section 8 of the spec. -/
def sampleRecord : InventoryRecord :=
  { id := 7
    name := "Paper Towels"
    normalized_name := "paper towels"
    category := "supplies"
    quantity := 3
    unit := "case"
    low_stock_threshold := 5
    status := .low_stock }

/-- Fixture: an editable row still carrying the review action. -/
def reviewRow : EditableImportRow :=
  { name := "paper towels"
    quantity := 2
    unit := "case"
    vendor := ""
    category := ""
    price := none
    duplicate_action := .review
    duplicate_candidates := ""
    merge_item_id := none }

/-- Fixture: a valid create-new editable row. -/
def createRow : EditableImportRow :=
  { name := "napkins"
    quantity := 4
    unit := "pack"
    vendor := ""
    category := ""
    price := none
    duplicate_action := .create_new
    duplicate_candidates := ""
    merge_item_id := none }

/-- C1: a commit batch containing any row with the review action is rejected
by the client gate of commitImport before any request is issued — the
payload construction throws, the flow ends in a client error, and the store
is left exactly as it was, however many other rows are valid. -/
theorem commitImport_review_gate (defaultThreshold : ℚ)
    (store : List InventoryRecord) (rows : List EditableImportRow)
    (suggestions : List DuplicateSuggestionForImportItem)
    (h : ∃ row ∈ rows, row.duplicate_action = .review) :
    buildCommitPayload rows suggestions =
      Except.error "Resolve duplicate decisions before commit." ∧
    commitImportFlow defaultThreshold store rows suggestions =
      .clientError "Resolve duplicate decisions before commit." ∧
    storeAfterFlow defaultThreshold store rows suggestions = store := by
  have hany : rows.any (fun row => row.duplicate_action = .review) = true := by
    rw [List.any_eq_true]
    obtain ⟨row, hm, hr⟩ := h
    exact ⟨row, hm, by simp [hr]⟩
  have hb : buildCommitPayload rows suggestions =
      Except.error "Resolve duplicate decisions before commit." := by
    simp [buildCommitPayload, hany]
  exact ⟨hb, by simp [commitImportFlow, hb],
    by simp [storeAfterFlow, commitImportFlow, hb]⟩

/-- Witness for C1: one valid row plus one review row, against the sample
store — the store survives unchanged. -/
theorem commitImport_review_gate_witness :
    storeAfterFlow 1 [sampleRecord] [createRow, reviewRow] [] = [sampleRecord] := by
  have h := commitImport_review_gate 1 [sampleRecord] [createRow, reviewRow] []
    ⟨reviewRow, by simp, rfl⟩
  exact h.2.2

/-- Fixture: a valid create-new commit item. -/
def createItem : CommitPayloadItem :=
  { name := "napkins"
    quantity := 4
    unit := "pack"
    vendor := none
    category := none
    price := none
    duplicate_action := .create_new
    merge_item_id := none }

/-- Fixture: a merge commit item whose target id 99 resolves to nothing in
the sample store. -/
def badMergeItem : CommitPayloadItem :=
  { name := "paper towels"
    quantity := 2
    unit := "case"
    vendor := none
    category := none
    price := none
    duplicate_action := .merge
    merge_item_id := some 99 }

/-- C2: a commit batch containing an invalid merge target (absent or
dangling) fails as a whole, and the observable store after the failed call
equals the store before it — no partial write survives, whatever else the
batch contains. -/
theorem commitImport_atomicity (defaultThreshold : ℚ)
    (store : List InventoryRecord) (items : List CommitPayloadItem)
    (h : ∃ d ∈ items, isMergeAction d.duplicate_action = true ∧
        ∀ t, d.merge_item_id = some t → lookupRecord store t = none) :
    (∃ e, commitImportServer defaultThreshold store items = Except.error e) ∧
    commitStateAfter defaultThreshold store items = store := by
  obtain ⟨d, hd, ha, ht⟩ := h
  exact commitServer_error_of_problem defaultThreshold store items
    ⟨d, hd, decisionProblem_isSome_of_badTarget store d ha ht⟩

/-- Witness for C2: a batch of one valid create and one merge whose target
is missing from the store leaves the sample store untouched. -/
theorem commitImport_atomicity_witness :
    commitStateAfter 1 [sampleRecord] [createItem, badMergeItem] = [sampleRecord] := by
  have h := commitImport_atomicity 1 [sampleRecord] [createItem, badMergeItem]
    ⟨badMergeItem, by simp, rfl, by
      intro t ht
      have h99 : t = 99 := by
        have : (some 99 : Option Int) = some t := ht
        exact (Option.some.inj this).symm
      subst h99
      rfl⟩
  exact h.2

/-- C3: applying a merge-like decision of quantity q to a store containing
the target record of quantity r succeeds, sets the target quantity to
exactly q plus r (never negative when both were non-negative, as the data
model guarantees), and maps every other id to exactly the record it had
before. -/
theorem commit_merge_quantity (defaultThreshold : ℚ) (store : List InventoryRecord)
    (index : Nat) (d : CommitPayloadItem) (t : Int) (r : InventoryRecord)
    (ha : isMergeAction d.duplicate_action = true)
    (ht : d.merge_item_id = some t)
    (hr : lookupRecord store t = some r)
    (hq : 0 ≤ d.quantity) (hrq : 0 ≤ r.quantity) :
    applyDecision defaultThreshold store index d =
      Except.ok (store.map (fun x => if x.id = t then mergeInto d x else x),
        mergeInto d r) ∧
    lookupRecord (store.map (fun x => if x.id = t then mergeInto d x else x)) t =
      some (mergeInto d r) ∧
    (mergeInto d r).quantity = d.quantity + r.quantity ∧
    0 ≤ (mergeInto d r).quantity ∧
    (∀ i, i ≠ t →
      lookupRecord (store.map (fun x => if x.id = t then mergeInto d x else x)) i =
        lookupRecord store i) := by
  have hrid : r.id = t := lookupRecord_some_id store t r hr
  have hmap := lookupRecord_map_update store
    (fun x => if x.id = t then mergeInto d x else x) (updateRecord_id d t)
  refine ⟨applyDecision_merge_eq defaultThreshold store index d t r ha ht hr, ?_, ?_, ?_, ?_⟩
  · rw [hmap t, hr]
    simp [hrid]
  · show r.quantity + d.quantity = d.quantity + r.quantity
    ring
  · show 0 ≤ r.quantity + d.quantity
    exact add_nonneg hrq hq
  · intro i hi
    rw [hmap i]
    cases hlk : lookupRecord store i with
    | none => rfl
    | some x =>
        have hxid : x.id = i := lookupRecord_some_id store i x hlk
        simp [hxid, hi]

/-- Witness for C3: merging the section 8 candidate (quantity 2) into the
sample record (quantity 3) yields quantity 5 on record 7. -/
theorem commit_merge_quantity_witness :
    (mergeInto
        { name := "paper towels", quantity := 2, unit := "case", vendor := none,
          category := none, price := none, duplicate_action := .auto,
          merge_item_id := some 7 } sampleRecord).quantity = 5 := by
  have h := commit_merge_quantity 1 [sampleRecord] 0
    { name := "paper towels", quantity := 2, unit := "case", vendor := none,
      category := none, price := none, duplicate_action := .auto,
      merge_item_id := some 7 } 7 sampleRecord rfl rfl rfl (by norm_num)
    (by norm_num [sampleRecord])
  rw [h.2.2.1]
  norm_num [sampleRecord]

/-- C6: a merge-like decision applied to a record whose status is
discontinued or ordered changes its quantity but not its status; and the
merge status recomputation can only ever keep a status or move between
in_stock and low_stock. -/
theorem commit_merge_preserves_status (defaultThreshold : ℚ)
    (store : List InventoryRecord) (index : Nat) (d : CommitPayloadItem)
    (t : Int) (r : InventoryRecord)
    (ha : isMergeAction d.duplicate_action = true)
    (ht : d.merge_item_id = some t)
    (hr : lookupRecord store t = some r)
    (hs : r.status = .discontinued ∨ r.status = .ordered) :
    applyDecision defaultThreshold store index d =
      Except.ok (store.map (fun x => if x.id = t then mergeInto d x else x),
        mergeInto d r) ∧
    (mergeInto d r).status = r.status ∧
    (mergeInto d r).quantity = r.quantity + d.quantity ∧
    (∀ x : InventoryRecord, (mergeInto d x).status = x.status ∨
      (mergeInto d x).status = InventoryStatus.in_stock ∨
      (mergeInto d x).status = InventoryStatus.low_stock) := by
  refine ⟨applyDecision_merge_eq defaultThreshold store index d t r ha ht hr, ?_, rfl, ?_⟩
  · rcases hs with h | h <;> simp [mergeInto, recomputeStatus, h]
  · intro x
    cases hx : x.status with
    | in_stock =>
        right
        simp only [mergeInto, recomputeStatus, hx, statusForQuantity]
        split
        · right; rfl
        · left; rfl
    | low_stock =>
        right
        simp only [mergeInto, recomputeStatus, hx, statusForQuantity]
        split
        · right; rfl
        · left; rfl
    | ordered => left; simp [mergeInto, recomputeStatus, hx]
    | discontinued => left; simp [mergeInto, recomputeStatus, hx]

/-- Witness for C6: merging quantity 10 into a discontinued record leaves it
discontinued while its quantity grows. -/
theorem commit_merge_preserves_status_witness :
    (mergeInto
        { name := "fax paper", quantity := 10, unit := "box", vendor := none,
          category := none, price := none, duplicate_action := .merge,
          merge_item_id := some 3 }
        { id := 3, name := "Fax Paper", normalized_name := "fax paper",
          category := "supplies", quantity := 1, unit := "box",
          low_stock_threshold := 5, status := .discontinued }).status =
      InventoryStatus.discontinued := by
  have h := commit_merge_preserves_status 1
    [{ id := 3, name := "Fax Paper", normalized_name := "fax paper",
       category := "supplies", quantity := 1, unit := "box",
       low_stock_threshold := 5, status := .discontinued }] 0
    { name := "fax paper", quantity := 10, unit := "box", vendor := none,
      category := none, price := none, duplicate_action := .merge,
      merge_item_id := some 3 } 3
    { id := 3, name := "Fax Paper", normalized_name := "fax paper",
      category := "supplies", quantity := 1, unit := "box",
      low_stock_threshold := 5, status := .discontinued }
    rfl rfl rfl (Or.inl rfl)
  exact h.2.1

/-- Fixture: an auto row whose own merge id is absent. -/
def autoRowNoTarget : EditableImportRow :=
  { name := "flour"
    quantity := 2
    unit := "kg"
    vendor := ""
    category := ""
    price := none
    duplicate_action := .auto
    duplicate_candidates := ""
    merge_item_id := none }

/-- Fixture: a merge row whose own merge id is absent. -/
def mergeRowNoTarget : EditableImportRow :=
  { name := "flour"
    quantity := 2
    unit := "kg"
    vendor := ""
    category := ""
    price := none
    duplicate_action := .merge
    duplicate_candidates := ""
    merge_item_id := none }

/-- Fixture: a suggestion at import index 0 recommending record 7. -/
def suggestionRecommendingSeven : DuplicateSuggestionForImportItem :=
  { import_index := 0
    import_name := "flour"
    import_unit := "kg"
    candidates := []
    recommended_action := .auto
    recommended_merge_item_id := some 7 }

/-- C4 counterexample: commitImport submits a null merge target for an auto
row with no explicit target even though a recommendation (record 7) exists
for its index — the fallback of lines 444 to 448 applies only to rows whose
action is merge, so the claim fails for auto rows. -/
theorem commitImport_auto_no_fallback_counterexample :
    (buildCommitPayload [autoRowNoTarget] [suggestionRecommendingSeven]).map
        (fun items => items.map (fun p => p.merge_item_id)) =
      Except.ok [(none : Option Int)] ∧
    suggestionRecommendingSeven.recommended_merge_item_id = some 7 ∧
    (none : Option Int) ≠ some 7 := by
  refine ⟨?_, rfl, by decide⟩
  rfl

/-- C4 (amended): in the commit payload, a truthy explicit merge target is
used as-is; a merge row whose own target is falsy (null or zero) falls back
to the recommendation at the same array position, null when none exists; a
row whose action is not merge (auto included) submits its own target with no
fallback; and the modelled Commit Reconciler rejects any batch in which a
merge-like decision arrives with a null target, leaving the store
unchanged. -/
theorem commitImport_merge_target_resolution
    (suggestions : List DuplicateSuggestionForImportItem) (index : Nat)
    (row : EditableImportRow) :
    (mergeIdFalsy row.merge_item_id = false →
      resolveMergeItemId suggestions index row = row.merge_item_id) ∧
    (row.duplicate_action = .merge → mergeIdFalsy row.merge_item_id = true →
      resolveMergeItemId suggestions index row =
        (suggestions.get? index).bind (fun s => s.recommended_merge_item_id)) ∧
    (row.duplicate_action ≠ .merge →
      resolveMergeItemId suggestions index row = row.merge_item_id) ∧
    (∀ (defaultThreshold : ℚ) (store : List InventoryRecord)
        (items : List CommitPayloadItem),
      (∃ d ∈ items, isMergeAction d.duplicate_action = true ∧
          d.merge_item_id = none) →
      (∃ e, commitImportServer defaultThreshold store items = Except.error e) ∧
      commitStateAfter defaultThreshold store items = store) := by
  refine ⟨?_, ?_, ?_, ?_⟩
  · intro hf
    simp [resolveMergeItemId, hf]
  · intro hm hf
    simp [resolveMergeItemId, hm, hf]
  · intro hm
    simp [resolveMergeItemId, hm]
  · intro defaultThreshold store items h
    obtain ⟨d, hd, ha, hnone⟩ := h
    exact commitServer_error_of_problem defaultThreshold store items
      ⟨d, hd, decisionProblem_isSome_of_badTarget store d ha
        (fun t ht => by rw [hnone] at ht; cases ht)⟩

/-- Witness for C4 at a merge row with no explicit target: the payload picks
up the recommended record 7. -/
theorem commitImport_merge_target_resolution_witness :
    resolveMergeItemId [suggestionRecommendingSeven] 0 mergeRowNoTarget = some 7 := by
  have h := (commitImport_merge_target_resolution [suggestionRecommendingSeven] 0
    mergeRowNoTarget).2.1 rfl rfl
  rw [h]
  rfl

/-- Helper: the suggestion list has one entry per input item. -/
theorem suggestDuplicatesFrom_length
    (score : ReceiptItem → InventoryRecord → ℚ × String) (cfg : ScoringConfig)
    (unitCompatible : ReceiptItem → DuplicateSuggestionCandidate → Bool)
    (store : List InventoryRecord) :
    ∀ (i0 : Nat) (items : List ReceiptItem),
      (suggestDuplicatesFrom score cfg unitCompatible store i0 items).length =
        items.length := by
  intro i0 items
  induction items generalizing i0 with
  | nil => rfl
  | cons item rest ih => simp [suggestDuplicatesFrom, ih]

/-- Helper: the suggestion at position j is built for the item at position j
with import index i0 plus j. -/
theorem suggestDuplicatesFrom_get?
    (score : ReceiptItem → InventoryRecord → ℚ × String) (cfg : ScoringConfig)
    (unitCompatible : ReceiptItem → DuplicateSuggestionCandidate → Bool)
    (store : List InventoryRecord) :
    ∀ (i0 : Nat) (items : List ReceiptItem) (j : Nat),
      (suggestDuplicatesFrom score cfg unitCompatible store i0 items).get? j =
        (items.get? j).map
          (fun it => mkSuggestionFor score cfg unitCompatible store (i0 + j) it) := by
  intro i0 items
  induction items generalizing i0 with
  | nil => intro j; rfl
  | cons item rest ih =>
      intro j
      cases j with
      | zero => rfl
      | succ j =>
          have harith : i0 + 1 + j = i0 + (j + 1) := by omega
          simp only [suggestDuplicatesFrom, List.get?_cons_succ, ih (i0 + 1) j, harith]

/-- Helper: the import index recorded in a built suggestion. -/
theorem mkSuggestionFor_index
    (score : ReceiptItem → InventoryRecord → ℚ × String) (cfg : ScoringConfig)
    (unitCompatible : ReceiptItem → DuplicateSuggestionCandidate → Bool)
    (store : List InventoryRecord) (index : Nat) (item : ReceiptItem) :
    (mkSuggestionFor score cfg unitCompatible store index item).import_index = index :=
  rfl

/-- Helper: the Map-style lookup by import index over the modelled
suggestion list finds exactly the suggestion built for that index. -/
theorem lookupSuggestionByIndex_suggestFrom
    (score : ReceiptItem → InventoryRecord → ℚ × String) (cfg : ScoringConfig)
    (unitCompatible : ReceiptItem → DuplicateSuggestionCandidate → Bool)
    (store : List InventoryRecord) (i0 : Nat) (items : List ReceiptItem)
    (j : Nat) (it : ReceiptItem) (hj : items.get? j = some it) :
    lookupSuggestionByIndex
        (suggestDuplicatesFrom score cfg unitCompatible store i0 items) (i0 + j) =
      some (mkSuggestionFor score cfg unitCompatible store (i0 + j) it) := by
  have hget := suggestDuplicatesFrom_get? score cfg unitCompatible store i0 items j
  rw [hj] at hget
  have hmem : mkSuggestionFor score cfg unitCompatible store (i0 + j) it ∈
      suggestDuplicatesFrom score cfg unitCompatible store i0 items :=
    List.get?_mem hget
  have hex : ∃ x ∈ (suggestDuplicatesFrom score cfg unitCompatible store i0 items).reverse,
      (fun s => decide (s.import_index = i0 + j)) x = true := by
    refine ⟨mkSuggestionFor score cfg unitCompatible store (i0 + j) it,
      List.mem_reverse.mpr hmem, ?_⟩
    simp [mkSuggestionFor_index]
  have hsome : (lookupSuggestionByIndex
      (suggestDuplicatesFrom score cfg unitCompatible store i0 items) (i0 + j)).isSome := by
    unfold lookupSuggestionByIndex
    rw [List.find?_isSome]
    obtain ⟨x, hx, hpx⟩ := hex
    exact ⟨x, hx, hpx⟩
  obtain ⟨y, hy⟩ := Option.isSome_iff_exists.mp hsome
  have hpy := List.find?_some hy
  have hymem : y ∈ suggestDuplicatesFrom score cfg unitCompatible store i0 items :=
    List.mem_reverse.mp (List.mem_of_find?_eq_some hy)
  obtain ⟨j2, hj2⟩ := List.mem_iff_get?.mp hymem
  rw [suggestDuplicatesFrom_get? score cfg unitCompatible store i0 items j2] at hj2
  cases hit2 : items.get? j2 with
  | none => rw [hit2] at hj2; cases hj2
  | some it2 =>
      rw [hit2] at hj2
      have hy2 : y = mkSuggestionFor score cfg unitCompatible store (i0 + j2) it2 :=
        (Option.some.inj hj2).symm
      have hidx : y.import_index = i0 + j := by simpa using hpy
      have hj2j : j2 = j := by
        rw [hy2, mkSuggestionFor_index] at hidx
        omega
      subst hj2j
      have hit : it2 = it := by
        rw [hj] at hit2
        exact (Option.some.inj hit2).symm
      subst hit
      rw [lookupSuggestionByIndex] at hy ⊢
      rw [hy, hy2]

/-- Helper: the editable row at position j is built from the item at
position j and the suggestion looked up for import index i0 plus j. -/
theorem buildImportRowsFrom_get? (parsedVendor : Option String)
    (suggestions : List DuplicateSuggestionForImportItem) :
    ∀ (i0 : Nat) (items : List ReceiptItem) (j : Nat),
      (buildImportRowsFrom parsedVendor suggestions i0 items).get? j =
        (items.get? j).map
          (fun it => rowOfItem parsedVendor
            (lookupSuggestionByIndex suggestions (i0 + j)) it) := by
  intro i0 items
  induction items generalizing i0 with
  | nil => intro j; rfl
  | cons item rest ih =>
      intro j
      cases j with
      | zero => rfl
      | succ j =>
          have harith : i0 + 1 + j = i0 + (j + 1) := by omega
          simp only [buildImportRowsFrom, List.get?_cons_succ, ih (i0 + 1) j, harith]

/-- C5: the modelled suggest-duplicates endpoint returns exactly one
suggestion per input item, the suggestion at position i carrying the
value i in import_index; and the editable review row built at position i
is initialised with the recommended action and recommended merge id of the
suggestion whose import index equals i. -/
theorem suggestDuplicates_one_per_item
    (score : ReceiptItem → InventoryRecord → ℚ × String) (cfg : ScoringConfig)
    (unitCompatible : ReceiptItem → DuplicateSuggestionCandidate → Bool)
    (store : List InventoryRecord) (items : List ReceiptItem) :
    (suggestDuplicates score cfg unitCompatible store items).length = items.length ∧
    (∀ (i : Nat) (s : DuplicateSuggestionForImportItem),
      (suggestDuplicates score cfg unitCompatible store items).get? i = some s →
      s.import_index = i) ∧
    (∀ (vendor date : Option String) (i : Nat) (row : EditableImportRow)
        (s : DuplicateSuggestionForImportItem),
      (buildImportRows ⟨vendor, date, items⟩
          (suggestDuplicates score cfg unitCompatible store items)).get? i = some row →
      (suggestDuplicates score cfg unitCompatible store items).get? i = some s →
      row.duplicate_action = s.recommended_action ∧
      row.merge_item_id = s.recommended_merge_item_id) := by
  refine ⟨suggestDuplicatesFrom_length score cfg unitCompatible store 0 items, ?_, ?_⟩
  · intro i s hs
    rw [suggestDuplicates,
      suggestDuplicatesFrom_get? score cfg unitCompatible store 0 items i] at hs
    cases hit : items.get? i with
    | none => rw [hit] at hs; cases hs
    | some it =>
        rw [hit] at hs
        have : s = mkSuggestionFor score cfg unitCompatible store (0 + i) it :=
          (Option.some.inj hs).symm
        rw [this, mkSuggestionFor_index]
        omega
  · intro vendor date i row s hrow hs
    rw [buildImportRows,
      buildImportRowsFrom_get? vendor
        (suggestDuplicates score cfg unitCompatible store items) 0 items i] at hrow
    rw [suggestDuplicates,
      suggestDuplicatesFrom_get? score cfg unitCompatible store 0 items i] at hs
    cases hit : items.get? i with
    | none => rw [hit] at hs; cases hs
    | some it =>
        rw [hit] at hs hrow
        have hseq : s = mkSuggestionFor score cfg unitCompatible store (0 + i) it :=
          (Option.some.inj hs).symm
        have hlook := lookupSuggestionByIndex_suggestFrom score cfg unitCompatible
          store 0 items i it hit
        have hroweq : row = rowOfItem vendor
            (lookupSuggestionByIndex
              (suggestDuplicates score cfg unitCompatible store items) (0 + i)) it :=
          (Option.some.inj hrow).symm
        rw [suggestDuplicates] at hroweq
        rw [hroweq, hlook, ← hseq]
        constructor
        · simp [rowOfItem]
        · simp [rowOfItem]

/-- Fixture: the section 8 candidate row as a parsed receipt item. -/
def paperTowelsItem : ReceiptItem :=
  { name := "paper towels"
    quantity := some 2
    unit := some "case"
    category := none
    price := none
    vendor := none }

/-- Fixture: the example thresholds of section 4.2. -/
def witnessConfig : ScoringConfig :=
  { highThreshold := 92 / 100
    lowThreshold := 60 / 100
    floorScore := 1 / 2
    topN := 5 }

/-- Fixture: a constant scoring function for the witness. -/
def witnessScore : ReceiptItem → InventoryRecord → ℚ × String :=
  fun _ _ => (1, "exact name match")

/-- Fixture: a unit-compatibility predicate accepting everything. -/
def witnessUnitCompatible : ReceiptItem → DuplicateSuggestionCandidate → Bool :=
  fun _ _ => true

/-- Fixture: the suggestions computed for the one-item witness batch. -/
def witnessSuggestions : List DuplicateSuggestionForImportItem :=
  suggestDuplicates witnessScore witnessConfig witnessUnitCompatible
    [sampleRecord] [paperTowelsItem]

/-- Witness for C5 on a one-item batch against the sample store. -/
theorem suggestDuplicates_one_per_item_witness :
    witnessSuggestions.length = 1 ∧
    (mkSuggestionFor witnessScore witnessConfig witnessUnitCompatible
        [sampleRecord] 0 paperTowelsItem).import_index = 0 ∧
    ((rowOfItem none (lookupSuggestionByIndex witnessSuggestions 0)
          paperTowelsItem).duplicate_action =
        (mkSuggestionFor witnessScore witnessConfig witnessUnitCompatible
          [sampleRecord] 0 paperTowelsItem).recommended_action ∧
      (rowOfItem none (lookupSuggestionByIndex witnessSuggestions 0)
          paperTowelsItem).merge_item_id =
        (mkSuggestionFor witnessScore witnessConfig witnessUnitCompatible
          [sampleRecord] 0 paperTowelsItem).recommended_merge_item_id) := by
  have h := suggestDuplicates_one_per_item witnessScore witnessConfig
    witnessUnitCompatible [sampleRecord] [paperTowelsItem]
  exact ⟨h.1, h.2.1 0 _ rfl, h.2.2 none none 0 _ _ rfl rfl⟩
